import Mathlib

/-!
Verification of the snapshot-diff-and-aggregation engine of
`price_monitor.py`.

The repository's single source file scrapes item names and prices from
configured sites, compares each capture with the previous persisted
snapshot, filters price moves by a percentage threshold, and sends one
aggregated notification.  Page rendering, Telegram delivery and file I/O
are external collaborators; the core logic embedded here is:

* the price-text cleaner (`price_monitor.py` line 61):
  `float("".join(ch for ch in txt if ch.isdigit() or ch in ".,").replace(",", ".") or 0)`
* the per-site diff pipeline (lines 83-96): pandas left merge on `name`,
  delta column `((price - price_old) / price_old * 100).round(2)`,
  threshold mask `merged["delta"].abs() >= THRESHOLD` followed by
  `.dropna()`, conditional append of non-empty frames, unconditional
  snapshot save;
* the notification step (lines 102-111): one message iff `all_changes`
  is a non-empty list.

Machine floats are modelled as exact rationals, extended with the IEEE
special values `+inf`, `-inf` and `NaN` where the pipeline can produce
them (missing merge partner, division by a zero previous price).  Tie
behaviour of `.round(2)` (numpy rounds half to even, `round2` below
rounds half up) is the only deliberate deviation; no claim depends on a
tie.  Python's character classes are embedded from the Unicode data of
CPython 3.11: `str.isdigit` (characters with the digit property, e.g.
ASCII digits, Arabic-Indic digits, superscripts) and `str.isdecimal`
(the Nd decimal digits, exactly the digit characters `float()` accepts)
are tabulated below as codepoint ranges, because the two differ —
`"²".isdigit()` holds but `float("²")` raises — and that difference is
visible in the parser's behaviour.  The snapshot-file value path
(`to_json` / `read_json` defaults) is modelled separately for the
round-trip claim.
-/

namespace PriceMonitor

/-! ### Unicode character classes (CPython 3.11 Unicode data)

`decimalStarts` lists the first codepoint of every run of ten
consecutive decimal digits (Unicode category Nd, digit values 0-9 in
order); a character is decimal iff it lies in one of these runs, and
its digit value is its offset in the run.  `digitRanges` lists the
codepoint intervals of every character for which Python's
`str.isdigit()` is true — the decimal digits plus digit-property
characters such as superscripts, which `float()` does not accept. -/

/-- First codepoints of the 66 decimal-digit runs (`str.isdecimal`). -/
def decimalStarts : List Nat :=
  [48, 1632, 1776, 1984, 2406, 2534, 2662, 2790, 2918, 3046, 3174, 3302, 3430, 3558, 3664, 3792, 3872, 4160, 4240, 6112, 6160, 6470, 6608, 6784, 6800, 6992, 7088, 7232, 7248, 42528, 43216, 43264, 43472, 43504, 43600, 44016, 65296, 66720, 68912, 69734, 69872, 69942, 70096, 70384, 70736, 70864, 71248, 71360, 71472, 71904, 72016, 72784, 73040, 73120, 92768, 92864, 93008, 120782, 120792, 120802, 120812, 120822, 123200, 123632, 125264, 130032]

/-- Codepoint intervals of the 81 `str.isdigit` ranges. -/
def digitRanges : List (Nat × Nat) :=
  [(48, 57), (178, 179), (185, 185), (1632, 1641), (1776, 1785), (1984, 1993), (2406, 2415), (2534, 2543), (2662, 2671), (2790, 2799), (2918, 2927), (3046, 3055), (3174, 3183), (3302, 3311), (3430, 3439), (3558, 3567), (3664, 3673), (3792, 3801), (3872, 3881), (4160, 4169), (4240, 4249), (4969, 4977), (6112, 6121), (6160, 6169), (6470, 6479), (6608, 6618), (6784, 6793), (6800, 6809), (6992, 7001), (7088, 7097), (7232, 7241), (7248, 7257), (8304, 8304), (8308, 8313), (8320, 8329), (9312, 9320), (9332, 9340), (9352, 9360), (9450, 9450), (9461, 9469), (9471, 9471), (10102, 10110), (10112, 10120), (10122, 10130), (42528, 42537), (43216, 43225), (43264, 43273), (43472, 43481), (43504, 43513), (43600, 43609), (44016, 44025), (65296, 65305), (66720, 66729), (68160, 68163), (68912, 68921), (69216, 69224), (69714, 69722), (69734, 69743), (69872, 69881), (69942, 69951), (70096, 70105), (70384, 70393), (70736, 70745), (70864, 70873), (71248, 71257), (71360, 71369), (71472, 71481), (71904, 71913), (72016, 72025), (72784, 72793), (73040, 73049), (73120, 73129), (92768, 92777), (92864, 92873), (93008, 93017), (120782, 120831), (123200, 123209), (123632, 123641), (125264, 125273), (127232, 127242), (130032, 130041)]

/-- Python `ch.isdigit()`. -/
def pyIsDigit (c : Char) : Bool :=
  digitRanges.any (fun r => r.1 ≤ c.toNat && c.toNat ≤ r.2)

/-- Python `ch.isdecimal()`: exactly the digit characters accepted by
`float()`. -/
def pyIsDecimal (c : Char) : Bool :=
  decimalStarts.any (fun s => s ≤ c.toNat && c.toNat ≤ s + 9)

/-- The digit value of a decimal digit character (0 for others). -/
def decDigitVal (c : Char) : ℕ :=
  match decimalStarts.find? (fun s => s ≤ c.toNat && c.toNat ≤ s + 9) with
  | some s => c.toNat - s
  | none => 0

/-! ### Price Parser (`scrape_site`, line 61) -/

/-- Characters kept by the cleaner: `ch.isdigit() or ch in ".,"`. -/
def keepChar (c : Char) : Bool := pyIsDigit c || c == '.' || c == ','

/-- `.replace(",", ".")` applied character-wise (the pattern is a single
character, so substring replacement is a character map). -/
def normChar (c : Char) : Char := if c == ',' then '.' else c

/-- `"".join(ch for ch in txt if ch.isdigit() or ch in ".,").replace(",", ".")`. -/
def cleaned (txt : String) : String := ⟨(txt.data.filter keepChar).map normChar⟩

/-- Numeric value of a decimal-digit string (`0` for the empty string). -/
def digitsVal (cs : List Char) : ℕ := cs.foldl (fun a c => a * 10 + decDigitVal c) 0

/-- Digits before the decimal point. -/
def intPart (cs : List Char) : List Char := cs.takeWhile (fun c => c ≠ '.')

/-- Digits after the decimal point. -/
def fracPart (cs : List Char) : List Char := (cs.dropWhile (fun c => c ≠ '.')).drop 1

/-- Value of a decimal literal over digits and at most one dot. -/
def decVal (cs : List Char) : ℚ :=
  (digitsVal (intPart cs) : ℚ) + (digitsVal (fracPart cs) : ℚ) / 10 ^ (fracPart cs).length

/-- The strings on which Python's `float()` succeeds, restricted to the
cleaner's output alphabet (digit-property characters and dots): every
character a decimal digit or a dot, at most one dot, at least one
decimal digit (`"1."`, `".5"`, `"42"`, `"٣"` succeed; `"."`, `"1.2.3"`,
`""`, `"15²"` raise `ValueError`). -/
def isFloatLiteral (cs : List Char) : Bool :=
  cs.all (fun c => pyIsDecimal c || c == '.') && decide (cs.count '.' ≤ 1) && cs.any pyIsDecimal

/-- Python `float()` on a string: `none` models a raised `ValueError`. -/
def pyFloat (s : String) : Option ℚ :=
  if isFloatLiteral s.data then some (decVal s.data) else none

/-- Line 61 of `price_monitor.py`:
`float(cleaned or 0)` — the empty cleaned string becomes `float(0) = 0.0`,
any other cleaned string goes through `float()`, which can raise
(`none`). -/
def parse_price (txt : String) : Option ℚ :=
  let c := cleaned txt
  if c = "" then some 0 else pyFloat c

/-- The parse rule as the spec states it (§3, §4.1): strip every
character that is not a digit, `.` or `,`; normalize `,` to `.`; read
the remainder as a decimal number; empty or invalid remainder yields
`0.0`.  Stated from the spec's words, for comparison with
`parse_price`. -/
def parse_price_spec (txt : String) : ℚ :=
  if isFloatLiteral (cleaned txt).data then decVal (cleaned txt).data else 0

/-! ### Data model of the diff pipeline (`main`, lines 83-96)

An `Item` is one row of the scraped DataFrame; a `MergedRow` is one row
of `df.merge(prev, on="name", how="left", suffixes=("", "_old"))`, where
`price_old = none` models the NaN a left-merge puts in unmatched rows.
`Fl` is the value domain of the `delta` column: a finite float, `±inf`
(division of a non-zero number by zero) or NaN. -/

structure Item where
  name : String
  price : ℚ
deriving DecidableEq

structure MergedRow where
  name : String
  price : ℚ
  price_old : Option ℚ
deriving DecidableEq

inductive Fl where
  | num : ℚ → Fl
  | inf : Fl
  | ninf : Fl
  | nan : Fl
deriving DecidableEq

/-- Rounding to 2 decimal places (`.round(2)`); ties round half-up here
whereas numpy rounds half-to-even — no claim depends on a tie. -/
def round2 (q : ℚ) : ℚ := (round (q * 100) : ℤ) / 100

/-- IEEE semantics of `((price - price_old) / price_old * 100).round(2)`
for finite inputs (lines 87-88): finite when `price_old ≠ 0`; for
`price_old = 0` the division yields `+inf`, `-inf` or NaN, which the
multiplication by 100 and the rounding preserve. -/
def deltaFl (price price_old : ℚ) : Fl :=
  if price_old ≠ 0 then Fl.num (round2 ((price - price_old) / price_old * 100))
  else if price > price_old then Fl.inf
  else if price < price_old then Fl.ninf
  else Fl.nan

/-- The `delta` column of one merged row: an unmatched row has
`price_old = NaN`, and every arithmetic on NaN yields NaN. -/
def rowDelta (r : MergedRow) : Fl :=
  match r.price_old with
  | none => Fl.nan
  | some po => deltaFl r.price po

/-- `df.merge(prev, on="name", how="left", suffixes=("", "_old"))`
(line 86): every current row is kept in order; each previous row with
the same name produces one output row (in previous order); a current
row with no match gets `price_old = NaN`. -/
def merge (df prev : List Item) : List MergedRow :=
  df.flatMap (fun c =>
    let ms := prev.filter (fun p => p.name == c.name)
    if ms.isEmpty then [⟨c.name, c.price, none⟩]
    else ms.map (fun p => ⟨c.name, c.price, some p.price⟩))

/-- `merged["delta"] = ...` (lines 87-88): each row paired with its delta. -/
def withDelta (rows : List MergedRow) : List (MergedRow × Fl) :=
  rows.map (fun r => (r, rowDelta r))

/-- The boolean mask `merged["delta"].abs() >= THRESHOLD` (line 89):
`abs` maps `±inf` to `+inf`, which exceeds any threshold; any comparison
with NaN is false. -/
def absGE (x : Fl) (θ : ℚ) : Bool :=
  match x with
  | Fl.num q => decide (|q| ≥ θ)
  | Fl.inf => true
  | Fl.ninf => true
  | Fl.nan => false

/-- `.dropna()` (line 89): keeps a row iff no column is NaN — here
`price_old` (NaN in unmatched rows) and `delta`. -/
def notNA (rd : MergedRow × Fl) : Bool :=
  rd.1.price_old.isSome && decide (rd.2 ≠ Fl.nan)

/-- `changed = merged[merged["delta"].abs() >= THRESHOLD].dropna()`
(line 89). -/
def changed (df prev : List Item) (θ : ℚ) : List (MergedRow × Fl) :=
  ((withDelta (merge df prev)).filter (fun rd => absGE rd.2 θ)).filter notNA

/-- One row of `changed[["site", "name", "price_old", "price", "delta"]]`
after `changed["site"] = site["name"]` (lines 92-93). -/
structure ChangeRec where
  site : String
  name : String
  price_old : Option ℚ
  price : ℚ
  delta : Fl
deriving DecidableEq

/-- The change records of one site. -/
def siteChanged (siteName : String) (df prev : List Item) (θ : ℚ) : List ChangeRec :=
  (changed df prev θ).map (fun rd => ⟨siteName, rd.1.name, rd.1.price_old, rd.1.price, rd.2⟩)

/-! ### Snapshot Store and per-site key (lines 83-85, 96)

The `history/` directory is modelled as a map from file name to the
persisted snapshot.  `pd.read_json` / `df.to_json(orient="records")`
write and read back the name/price rows of one DataFrame; the store
holds the row list itself. -/

/-- `site['name'].replace(' ', '_')` scans the name left to right,
replacing each occurrence of the one-character pattern. -/
def replaceChar (old new : Char) : List Char → List Char
  | [] => []
  | c :: cs => (if c == old then new else c) :: replaceChar old new cs

/-- The sanitized storage key of a source name (line 83):
`site['name'].replace(' ', '_')`. -/
def sanitizeKey (name : String) : String := ⟨replaceChar ' ' '_' name.data⟩

/-- The snapshot file name inside `history/` (line 83):
`f"{site['name'].replace(' ', '_')}.json"`. -/
def histFile (name : String) : String := sanitizeKey name ++ ".json"

/-- The `history/` directory: file name to persisted rows. -/
def Store : Type := String → Option (List Item)

/-- `df.to_json(hist_file, orient="records", ...)` (line 96):
unconditionally overwrite the snapshot under `key`.  The orchestration
store hands the captured rows to the next load as they are; the
value-level effects of the JSON encoding itself (price printing
precision, name-column dtype inference) are modelled separately by
`toJson` and `readJson` below. -/
def Store.save (st : Store) (key : String) (snap : List Item) : Store :=
  fun k => if k = key then some snap else st k

/-- `hist_file.exists()` + `pd.read_json(hist_file)` (lines 84-85):
`none` models a missing snapshot file. -/
def Store.load (st : Store) (key : String) : Option (List Item) := st key

/-! ### Run Orchestrator (`main`, lines 71-111)

Scraping is an external collaborator, so a run takes each site's
captured rows as input: a site is a pair of its configured name and its
captured `(name, price)` rows.  `processSite` is one iteration of the
`for site in SITES` loop body; `runAll` is the whole loop, returning
`all_changes` (the list of the non-empty per-site change frames, in
site order) and the final state of `history/`. -/

/-- One loop iteration (lines 83-96): diff against the previous snapshot
when one exists, then persist the capture unconditionally. -/
def processSite (st : Store) (siteName : String) (df : List Item) (θ : ℚ) :
    List ChangeRec × Store :=
  let key := histFile siteName
  let chg := match st.load key with
    | none => []
    | some prev => siteChanged siteName df prev θ
  (chg, st.save key df)

/-- The whole `for site in SITES` loop: `all_changes` collects only the
non-empty per-site change frames (`if not changed.empty`, line 91), in
site order; the store threads through. -/
def runAll (θ : ℚ) : Store → List (String × List Item) → List (List ChangeRec) × Store
  | st, [] => ([], st)
  | st, (nm, df) :: rest =>
    let pr := processSite st nm df θ
    let rest' := runAll θ pr.2 rest
    (if pr.1.isEmpty then rest'.1 else pr.1 :: rest'.1, rest'.2)

/-- Every site's diff-and-filter output in site order, including empty
lists (the per-source change lists before the non-empty screening). -/
def runAllFull (θ : ℚ) : Store → List (String × List Item) → List (List ChangeRec)
  | _, [] => []
  | st, (nm, df) :: rest =>
    (processSite st nm df θ).1 :: runAllFull θ (processSite st nm df θ).2 rest

/-- The aggregated report: the change records the notification lines
iterate over (lines 104-109), frames in `all_changes` order and rows in
frame order. -/
def report (θ : ℚ) (st : Store) (sites : List (String × List Item)) : List ChangeRec :=
  (runAll θ st sites).1.flatten

/-- `if all_changes: ... await bot.send_message(...)` (lines 102-111):
one message when the list of change frames is non-empty, none otherwise. -/
def notificationsSent (allChanges : List (List ChangeRec)) : ℕ :=
  if allChanges.isEmpty then 0 else 1

/-! ### Spec-side sanitization rules (for claim C9) -/

/-- The sanitization rule as the spec states it (§3): every whitespace
character of the source name becomes an underscore.  Stated from the
spec's words, for comparison with `sanitizeKey`. -/
def sanitizeKeySpec (name : String) : String :=
  ⟨name.data.map (fun c => if c.isWhitespace then '_' else c)⟩

/-- The amended sanitization rule: only the space character `' '` is
replaced by an underscore; all other characters — other whitespace
included — are kept. -/
def sanitizeKeyAmended (name : String) : String :=
  ⟨name.data.map (fun c => if c == ' ' then '_' else c)⟩

/-! ### Snapshot-file value path (lines 85 and 96, for claim C8)

`df.to_json(hist_file, orient="records", force_ascii=False, indent=2)`
writes the rows with names as JSON strings and prices as floats printed
with the pandas default `double_precision=10` (at most 10 decimal
places).  `pd.read_json(hist_file)` parses the rows back and then
infers column dtypes: when every value of the `name` column parses as a
number, the whole column is converted to numbers; otherwise it stays a
string column. -/

/-- Prices as written by `to_json`: rounded to 10 decimal places
(pandas default `double_precision=10`). -/
def jsonPrice (q : ℚ) : ℚ := (round (q * 10 ^ 10) : ℤ) / 10 ^ 10

/-- The rows written to the snapshot file by line 96. -/
def toJson (snap : List Item) : List Item :=
  snap.map (fun it => ⟨it.name, jsonPrice it.price⟩)

/-- A value of the `name` column after `read_json` dtype inference:
still a string, or converted to a number. -/
inductive JName where
  | str : String → JName
  | num : ℚ → JName
deriving DecidableEq

/-- One row as returned by `pd.read_json` (line 85). -/
structure LoadedItem where
  name : JName
  price : ℚ
deriving DecidableEq

/-- Drop one leading sign character. -/
def dropSign (cs : List Char) : List Char :=
  match cs with
  | c :: rest => if c == '+' || c == '-' then rest else cs
  | [] => []

/-- Split a numeric token at its exponent marker, if any. -/
def splitExponent (cs : List Char) : List Char × Option (List Char) :=
  let p := cs.span (fun c => !(c == 'e' || c == 'E'))
  match p.2 with
  | [] => (p.1, none)
  | _ :: rest => (p.1, some rest)

/-- One `name` value converts under the `astype("float64")` step of
read_json's dtype inference when Python parses it as a float: an
optional sign, a decimal literal, and an optional signed integer
exponent.  (`float()` additionally accepts `inf`/`nan` spellings,
digit-group underscores and surrounding whitespace; such names also
convert but are not modelled.) -/
def numericString (s : String) : Bool :=
  match splitExponent (dropSign s.data) with
  | (m, none) => isFloatLiteral m
  | (m, some e) =>
    isFloatLiteral m && !(dropSign e).isEmpty && (dropSign e).all pyIsDecimal

/-- The number a convertible `name` value becomes. -/
def numericValue (s : String) : ℚ :=
  let sign : ℚ := if s.data.head? == some '-' then -1 else 1
  match splitExponent (dropSign s.data) with
  | (m, none) => sign * decVal m
  | (m, some e) =>
    let esign : ℤ := if e.head? == some '-' then -1 else 1
    sign * decVal m * 10 ^ (esign * (digitsVal (dropSign e) : ℤ))

/-- `pd.read_json` on the written rows: the `name` column is converted
to numbers iff every name parses as one. -/
def readJson (rows : List Item) : List LoadedItem :=
  if rows.all (fun r => numericString r.name) then
    rows.map (fun r => ⟨JName.num (numericValue r.name), r.price⟩)
  else
    rows.map (fun r => ⟨JName.str r.name, r.price⟩)

/-! ### Sanity checks of the embedding on concrete inputs -/

example : cleaned "155 028 ₽" = "155028" := by decide
example : cleaned "1 299,50 руб" = "1299.50" := by decide
example : parse_price "155 028 ₽" = some (decVal "155028".data) := rfl
example : parse_price "" = some 0 := rfl
example : parse_price "N/A" = some 0 := rfl
example : parse_price "1.2.3" = none := rfl
example : parse_price "." = none := rfl
example :
    merge [⟨"Gizmo", 60⟩] [⟨"Gadget", 50⟩] = [⟨"Gizmo", 60, none⟩] := by decide
example : changed [⟨"Gizmo", 60⟩] [⟨"Gadget", 50⟩] 1 = [] := by decide
example : sanitizeKey "Shop A" = "Shop_A" := by decide
example : pyIsDigit '²' = true := by decide
example : pyIsDecimal '²' = false := by decide
example : pyIsDecimal '٣' = true := by decide
example : cleaned "15²" = "15²" := by decide
example : parse_price "15²" = none := rfl
example : parse_price "٣" = some (decVal "٣".data) := rfl
example : numericString "123" = true := by decide
example : numericString "+4.5e-2" = true := by decide
example : numericString "Widget" = false := by decide

/-! ### Helper lemmas -/

/-- A dot does not have the digit property. -/
theorem pyIsDigit_dot : pyIsDigit '.' = false := by decide

/-- Decimal literal values are non-negative. -/
theorem decVal_nonneg (cs : List Char) : 0 ≤ decVal cs := by
  unfold decVal
  positivity

/-! ### Claim C3 -/

/-- C4 counterexample: the claim says `parse_price` equals the reference
definition, which maps an empty-or-invalid remainder to `0.0`; on `"."`
the reference value is `0`, but the code raises (`float(".")` is a
`ValueError`). -/
theorem C4_counterexample : parse_price "." = none ∧ parse_price_spec "." = 0 :=
  ⟨rfl, rfl⟩

/-- C4 (amended): whenever `parse_price` returns a value, that value
agrees with the spec's reference definition and is non-negative; the
two differ only on inputs where the code raises instead of returning
`0.0`. -/
theorem C4_parse_matches_spec (txt : String) (q : ℚ)
    (h : parse_price txt = some q) : q = parse_price_spec txt ∧ 0 ≤ q := by
  unfold parse_price at h
  by_cases he : cleaned txt = ""
  · rw [if_pos he] at h
    have hq : q = 0 := by
      simpa using h.symm
    have hlit : isFloatLiteral (cleaned txt).data = false := by
      have : (cleaned txt).data = [] := by rw [he]
      simp [isFloatLiteral, this]
    subst hq
    exact ⟨by simp [parse_price_spec, hlit], le_refl 0⟩
  · rw [if_neg he] at h
    unfold pyFloat at h
    by_cases hf : isFloatLiteral (cleaned txt).data = true
    · rw [if_pos hf] at h
      have hq : q = decVal (cleaned txt).data := by simpa using h.symm
      subst hq
      exact ⟨by simp [parse_price_spec, hf], decVal_nonneg _⟩
    · rw [if_neg hf] at h
      exact absurd h (by simp)

/-- C4 witness: the code comment's own example `"155 028 ₽"` parses to a
value that agrees with the reference definition and is non-negative. -/
theorem C4_witness :
    decVal (cleaned "155 028 ₽").data = parse_price_spec "155 028 ₽" ∧
      0 ≤ decVal (cleaned "155 028 ₽").data :=
  C4_parse_matches_spec "155 028 ₽" (decVal (cleaned "155 028 ₽").data) rfl

/-! ### Claim C9 -/

/-- C9 counterexample: the claim says every whitespace character of the
source name is replaced by an underscore, but `.replace(' ', '_')` only
replaces the space character: a name containing a tab keeps the tab. -/
theorem C9_counterexample : sanitizeKey "Shop\tA" ≠ sanitizeKeySpec "Shop\tA" := by
  decide

/-- C9 (amended): the storage key is the source name with every space
character (`' '`, U+0020) replaced by an underscore; all other
characters, other whitespace included, are unchanged. -/
theorem C9_sanitize_spaces_only (name : String) :
    sanitizeKey name = sanitizeKeyAmended name := by
  unfold sanitizeKey sanitizeKeyAmended
  congr 1
  induction name.data with
  | nil => rfl
  | cons c cs ih => simp [replaceChar, ih]

/-! ### Claim C8 -/

/-- C8 (code bug): the snapshot whose single item is named `"123"` does
not survive the save/load round trip item-for-item: the file stores the
name as the exact string `"123"`, but loading converts the all-numeric
name column to numbers, so the loaded name is a number — not the
string `"123"` the claim requires. -/
theorem C8_numeric_name_bug :
    (toJson [⟨"123", (10 : ℚ)⟩]).map Item.name = ["123"] ∧
      (readJson (toJson [⟨"123", (10 : ℚ)⟩])).map LoadedItem.name =
        [JName.num (numericValue "123")] ∧
      (JName.num (numericValue "123") == JName.str "123") = false :=
  ⟨rfl, rfl, rfl⟩

/-! ### Claim C5 -/

/-- C5: if a source has no prior snapshot, the loop body produces zero
change records for it (diffing is skipped); and — whether or not a
prior snapshot exists, and whether or not changes were found — the
capture is persisted as the new snapshot, because the save (line 96)
sits outside the `if hist_file.exists()` branch. -/
theorem C5_no_history_no_changes (st : Store) (nm : String) (df : List Item) (θ : ℚ) :
    (st.load (histFile nm) = none → (processSite st nm df θ).1 = []) ∧
      ((processSite st nm df θ).2).load (histFile nm) = some df := by
  constructor
  · intro h
    simp only [processSite]
    rw [h]
  · simp [processSite, Store.save, Store.load]

/-- C5 witness: on an empty history directory, processing "Shop A"
yields no changes and persists the capture; with a prior snapshot
present, the capture is likewise persisted. -/
theorem C5_witness :
    (processSite (fun _ => none) "Shop A" [⟨"W", 10⟩] 1).1 = [] ∧
      ((processSite (fun _ => none) "Shop A" [⟨"W", 10⟩] 1).2).load (histFile "Shop A") =
        some [⟨"W", 10⟩] ∧
      ((processSite (fun _ => some [⟨"W", 5⟩]) "Shop A" [⟨"W", 10⟩] 1).2).load
          (histFile "Shop A") = some [⟨"W", 10⟩] :=
  ⟨(C5_no_history_no_changes (fun _ => none) "Shop A" [⟨"W", 10⟩] 1).1 rfl,
    (C5_no_history_no_changes (fun _ => none) "Shop A" [⟨"W", 10⟩] 1).2,
    (C5_no_history_no_changes (fun _ => some [⟨"W", 5⟩]) "Shop A" [⟨"W", 10⟩] 1).2⟩


/-! ### Claim C1 -/

/-- C1: every emitted change row is a matched pair whose delta is
exactly `((price - price_old) / price_old * 100).round(2)` under float
semantics and which passes the threshold mask; and a matched pair is
emitted if and only if its absolute delta meets the threshold — so
every matched pair passing the mask is emitted, and every excluded
matched pair fails it. -/
theorem C1_delta_formula_and_threshold (df prev : List Item) (θ : ℚ) (rd : MergedRow × Fl) :
    (rd ∈ changed df prev θ →
      ∃ po, rd.1.price_old = some po ∧ rd.2 = deltaFl rd.1.price po ∧
        absGE rd.2 θ = true)
    ∧ (rd ∈ withDelta (merge df prev) → rd.1.price_old.isSome = true →
      (rd ∈ changed df prev θ ↔ absGE rd.2 θ = true)) := by
  constructor
  · intro hmem
    have h2 := List.mem_filter.mp hmem
    have h1 := List.mem_filter.mp h2.1
    rcases List.mem_map.mp h1.1 with ⟨r, _hr, heq⟩
    subst heq
    have hN : r.price_old.isSome = true ∧ rowDelta r ≠ Fl.nan := by
      have := h2.2
      simpa [notNA] using this
    rcases Option.isSome_iff_exists.mp hN.1 with ⟨po, hpo⟩
    exact ⟨po, hpo, by simp [rowDelta, hpo], h1.2⟩
  · intro hmem hsome
    constructor
    · intro hch
      exact (List.mem_filter.mp (List.mem_filter.mp hch).1).2
    · intro htrue
      refine List.mem_filter.mpr ⟨List.mem_filter.mpr ⟨hmem, htrue⟩, ?_⟩
      have hnn : rd.2 ≠ Fl.nan := by
        intro hn
        rw [hn] at htrue
        exact Bool.false_ne_true htrue
      simp [notNA, hsome, hnn]

/-- C1 witness: with previous price 0, current price 7 and threshold 2,
the merged row's delta is `+inf` (the float value of the formula), it
passes the mask and is emitted; and the emitted-iff-mask equivalence
holds at this row. -/
theorem C1_witness :
    (∃ po, ((⟨"Zero", 7, some 0⟩, Fl.inf) : MergedRow × Fl).1.price_old = some po ∧
      ((⟨"Zero", 7, some 0⟩, Fl.inf) : MergedRow × Fl).2 =
        deltaFl ((⟨"Zero", 7, some 0⟩, Fl.inf) : MergedRow × Fl).1.price po ∧
      absGE ((⟨"Zero", 7, some 0⟩, Fl.inf) : MergedRow × Fl).2 2 = true) ∧
    (((⟨"Zero", 7, some 0⟩, Fl.inf) : MergedRow × Fl) ∈
        changed [⟨"Zero", 7⟩] [⟨"Zero", 0⟩] 2 ↔
      absGE ((⟨"Zero", 7, some 0⟩, Fl.inf) : MergedRow × Fl).2 2 = true) :=
  ⟨(C1_delta_formula_and_threshold [⟨"Zero", 7⟩] [⟨"Zero", 0⟩] 2
      (⟨"Zero", 7, some 0⟩, Fl.inf)).1 (by decide),
    (C1_delta_formula_and_threshold [⟨"Zero", 7⟩] [⟨"Zero", 0⟩] 2
      (⟨"Zero", 7, some 0⟩, Fl.inf)).2 (by decide) rfl⟩

/-! ### Claim C2 -/

/-- C2: every change record's name is the exact name of some current
item and of some previous item; a current item with no same-named
previous item is merged with `price_old = NaN` and dropped, so it
contributes no change record. -/
theorem C2_names_in_both_snapshots (siteName : String) (df prev : List Item) (θ : ℚ)
    (rec : ChangeRec) (h : rec ∈ siteChanged siteName df prev θ) :
    (∃ c ∈ df, c.name = rec.name) ∧ ∃ p ∈ prev, p.name = rec.name := by
  rcases List.mem_map.mp h with ⟨rd, hrd, heq⟩
  subst heq
  have h2 := List.mem_filter.mp hrd
  have h1 := List.mem_filter.mp h2.1
  rcases List.mem_map.mp h1.1 with ⟨r, hr, heq2⟩
  subst heq2
  rcases List.mem_flatMap.mp hr with ⟨c, hc, hrin⟩
  by_cases hms : (prev.filter (fun p => p.name == c.name)).isEmpty = true
  · rw [if_pos hms] at hrin
    have hre : r = ⟨c.name, c.price, none⟩ := List.mem_singleton.mp hrin
    have hN := h2.2
    rw [hre] at hN
    simp [notNA] at hN
  · rw [if_neg hms] at hrin
    rcases List.mem_map.mp hrin with ⟨p, hp, hpr⟩
    have hpmem := List.mem_filter.mp hp
    have hpname : p.name = c.name := by simpa using hpmem.2
    rw [← hpr]
    exact ⟨⟨c, hc, rfl⟩, ⟨p, hpmem.1, hpname⟩⟩

/-- C2 witness: the emitted record for item "Gadget" names an item
present in both the current and the previous snapshot. -/
theorem C2_witness :
    (∃ c ∈ [(⟨"Gadget", 3⟩ : Item)],
      c.name = (⟨"ShopX", "Gadget", some 0, 3, Fl.inf⟩ : ChangeRec).name) ∧
    ∃ p ∈ [(⟨"Gadget", 0⟩ : Item)],
      p.name = (⟨"ShopX", "Gadget", some 0, 3, Fl.inf⟩ : ChangeRec).name :=
  C2_names_in_both_snapshots "ShopX" [⟨"Gadget", 3⟩] [⟨"Gadget", 0⟩] 1
    ⟨"ShopX", "Gadget", some 0, 3, Fl.inf⟩ (by decide)

/-! ### Claim C10 -/

/-- C10: a matched pair with previous price exactly 0 either has a
positive current price — then its delta is `+inf`, which passes the
threshold mask and survives `.dropna()`, so the pair is reported — or a
zero current price — then its delta is NaN, the mask is false, and the
pair is excluded. -/
theorem C10_zero_previous_price (df prev : List Item) (θ : ℚ) (rd : MergedRow × Fl)
    (hmem : rd ∈ withDelta (merge df prev)) (h0 : rd.1.price_old = some 0) :
    (0 < rd.1.price → rd.2 = Fl.inf ∧ rd ∈ changed df prev θ)
    ∧ (rd.1.price = 0 → rd.2 = Fl.nan ∧ rd ∉ changed df prev θ) := by
  rcases List.mem_map.mp hmem with ⟨r, hr, heq⟩
  subst heq
  have h0' : r.price_old = some 0 := h0
  have hdelta : rowDelta r = deltaFl r.price 0 := by simp [rowDelta, h0']
  constructor
  · intro hpos
    have hinf : rowDelta r = Fl.inf := by
      rw [hdelta]
      unfold deltaFl
      rw [if_neg (by simp), if_pos hpos]
    refine ⟨hinf, ?_⟩
    refine List.mem_filter.mpr ⟨List.mem_filter.mpr ⟨hmem, ?_⟩, ?_⟩
    · simp [hinf, absGE]
    · simp [notNA, h0', hinf]
  · intro hz
    have hnan : rowDelta r = Fl.nan := by
      rw [hdelta, hz]
      unfold deltaFl
      simp
    refine ⟨hnan, ?_⟩
    intro hmc
    have h1 := List.mem_filter.mp (List.mem_filter.mp hmc).1
    rw [show ((r, rowDelta r) : MergedRow × Fl).2 = Fl.nan from hnan] at h1
    exact Bool.false_ne_true h1.2

/-- C10 witness: previous price 0 and current price 4 yields delta
`+inf` and the pair is reported. -/
theorem C10_witness :
    ((⟨"Free", 4, some 0⟩, Fl.inf) : MergedRow × Fl).2 = Fl.inf ∧
      ((⟨"Free", 4, some 0⟩, Fl.inf) : MergedRow × Fl) ∈
        changed [⟨"Free", 4⟩] [⟨"Free", 0⟩] 3 :=
  (C10_zero_previous_price [⟨"Free", 4⟩] [⟨"Free", 0⟩] 3
    (⟨"Free", 4, some 0⟩, Fl.inf) (by decide) rfl).1 (by norm_num)

/-! ### Claim C6 -/

/-- Helper: every frame collected in `all_changes` is non-empty (only
non-empty `changed` frames are appended, line 91). -/
theorem runAll_frames_nonempty (theta : Rat) (sites : List (String × List Item)) :
    ∀ st : Store, ∀ l ∈ (runAll theta st sites).1, l ≠ [] := by
  induction sites with
  | nil =>
    intro st l hl
    simp [runAll] at hl
  | cons s rest ih =>
    rcases s with ⟨nm, df⟩
    intro st l hl
    simp only [runAll] at hl
    by_cases h : (processSite st nm df theta).1.isEmpty = true
    · rw [if_pos h] at hl
      exact ih _ l hl
    · rw [if_neg h] at hl
      rcases List.mem_cons.mp hl with rfl | hl'
      · intro hnil
        rw [hnil] at h
        exact h rfl
      · exact ih _ l hl'

/-- Helper: skipping the empty frames does not change the concatenated
report. -/
theorem runAll_flatten_eq (theta : Rat) (sites : List (String × List Item)) :
    ∀ st : Store, ((runAll theta st sites).1).flatten = (runAllFull theta st sites).flatten := by
  induction sites with
  | nil => intro st; rfl
  | cons s rest ih =>
    rcases s with ⟨nm, df⟩
    intro st
    simp only [runAll, runAllFull, List.flatten_cons]
    by_cases h : (processSite st nm df theta).1.isEmpty = true
    · rw [if_pos h, List.isEmpty_iff.mp h, List.nil_append]
      exact ih _
    · rw [if_neg h, List.flatten_cons, ih _]

/-- C6: the aggregated report is exactly the concatenation, in
source-configuration order, of each source's change list, each in its
own match order; no sorting is applied anywhere. -/
theorem C6_report_is_ordered_concat (theta : Rat) (st : Store)
    (sites : List (String × List Item)) :
    report theta st sites = (runAllFull theta st sites).flatten :=
  runAll_flatten_eq theta sites st

/-! ### Claim C7 -/

/-- C7: exactly one notification is sent when the aggregated report has
at least one change record, and none when it has zero records. -/
theorem C7_single_notification (theta : Rat) (st : Store)
    (sites : List (String × List Item)) :
    notificationsSent (runAll theta st sites).1 =
      if report theta st sites = [] then 0 else 1 := by
  unfold notificationsSent report
  rcases hres : (runAll theta st sites).1 with _ | ⟨l, ls⟩
  · simp
  · have hne : l ≠ [] :=
      runAll_frames_nonempty theta sites st l (by rw [hres]; exact List.mem_cons_self l ls)
    have hfl : (l :: ls).flatten ≠ [] := by
      rw [List.flatten_cons]
      intro hc
      exact hne (List.append_eq_nil.mp hc).1
    rw [if_neg hfl]
    rfl

end PriceMonitor

